import Mathlib

/-!
Verification of the HLS transcoding-and-publication pipeline of this
repository against its specification.  The repository files under `src`
contain the integration test of the pipeline (`checkHlsPlaylist` and
`runTestSuite` in `src/unnamed/part_000`): their pure assertion content is
embedded below as Boolean predicates.  The pipeline itself (scheduler,
encoder adapter, segment hasher, manifest builder, storage publisher) is
not under `src`, so it is modelled from the spec, each such definition
carrying a doc comment starting with `Modelled from the spec:`.
-/

namespace PeerTube

/-- Delivery-technology tag of a streaming playlist, from
`VideoStreamingPlaylistType` used at `src/unnamed/part_000` line 33. -/
inductive VideoStreamingPlaylistType
  | HLS
deriving DecidableEq, Repr

/-- Resolution descriptor of a variant file: numeric id and display label,
as read by the test through `file.resolution.id` and
`file.resolution.label` (`src/unnamed/part_000` lines 43 and 51). -/
structure ResolutionInfo where
  id : Nat
  label : String
deriving DecidableEq, Repr

/-- A per-resolution variant file as the serving API exposes it, with the
fields the test reads (`src/unnamed/part_000` lines 43-59). -/
structure VariantFile where
  resolution : ResolutionInfo
  magnetUri : String
  torrentUrl : String
  fileUrl : String
deriving DecidableEq, Repr

/-- A streaming playlist record of a video, with the fields the test reads
(`src/unnamed/part_000` lines 31-37 and 63). -/
structure StreamingPlaylist where
  type : VideoStreamingPlaylistType
  playlistUrl : String
  files : List VariantFile
deriving DecidableEq, Repr

/-- The video detail record returned by the API, with the fields the test
reads (`src/unnamed/part_000` lines 28-40). -/
structure VideoDetails where
  uuid : String
  name : String
  hostAccount : String
  files : List VariantFile
  streamingPlaylists : List StreamingPlaylist
deriving DecidableEq, Repr

/-- Transcoding configuration as overridden by the test
(`src/unnamed/part_000` lines 170-178 and 195-218). -/
structure TranscodingConfig where
  enabled : Bool
  allowAudioFiles : Bool
  hlsEnabled : Bool
  webtorrentEnabled : Bool
deriving DecidableEq, Repr

/-- Torrent (peer-descriptor) URL template asserted by the test at
`src/unnamed/part_000` line 47. -/
def torrentUrlFor (host uuid : String) (r : Nat) : String :=
  "http://" ++ host ++ "/lazy-static/torrents/" ++ uuid ++ "-" ++ toString r ++ "-hls.torrent"

/-- Direct-fetch fragmented-mp4 URL template asserted by the test at
`src/unnamed/part_000` lines 48-50. -/
def fileUrlFor (host uuid : String) (r : Nat) : String :=
  "http://" ++ host ++ "/static/streaming-playlists/hls/" ++ uuid ++ "/" ++ uuid ++ "-" ++ toString r ++ "-fragmented.mp4"

/-- Variant sub-manifest name template asserted by the test at
`src/unnamed/part_000` lines 68 and 76. -/
def variantManifestName (r : Nat) : String :=
  toString r ++ ".m3u8"

/-- Variant sub-manifest URL template used by the test at
`src/unnamed/part_000` line 76. -/
def variantManifestUrlFor (host uuid : String) (r : Nat) : String :=
  "http://" ++ host ++ "/static/streaming-playlists/hls/" ++ uuid ++ "/" ++ variantManifestName r

/-- Direct-fetch file name referenced inside a variant sub-manifest,
asserted by the test at `src/unnamed/part_000` line 79. -/
def fragmentedFileName (uuid : String) (r : Nat) : String :=
  uuid ++ "-" ++ toString r ++ "-fragmented.mp4"

/-- Modelled from the spec: master-manifest URL of the video's HLS
playlist tree (section 6, master manifest at a video-scoped
streaming-playlist path). -/
def hlsPlaylistUrlFor (host uuid : String) : String :=
  "http://" ++ host ++ "/static/streaming-playlists/hls/" ++ uuid ++ "/master.m3u8"

/-- Modelled from the spec: the digest the Segment Hasher computes
(section 4.3); the concrete sha256 used by the helper `checkSegmentHash`
is not under `src`, so a pure seedless folding digest stands in for it. -/
def sha256Model (bytes : List Nat) : Nat :=
  bytes.foldl (fun acc b => (acc * 16777619 + b % 256 + 1) % (2 ^ 256)) 2166136261

/-- A server instance: host plus per-process data that differs across
restarts and across independent instances. -/
structure ServerInstance where
  host : String
  bootNonce : Nat
deriving DecidableEq, Repr

/-- Modelled from the spec: the digest as computed on a given instance;
per section 4.3 it is a pure function of the bytes with no randomized
seed, so the instance state is not consulted. -/
def segmentHashOn (_inst : ServerInstance) (bytes : List Nat) : Nat :=
  sha256Model bytes

/-- Modelled from the spec: the verification step of `checkSegmentHash`
(helper not under `src`): the digest of the served bytes is compared with
the published digest. -/
def verifySegment (publishedDigest : Nat) (servedBytes : List Nat) : Bool :=
  sha256Model servedBytes == publishedDigest

/-- Modelled from the spec: the Encoder Adapter's per-resolution segment
bytes for a source (section 4.2); the encoding itself is external, only
its dependence on source and target resolution is kept. -/
def encodeSegmentBytes (source : List Nat) (r : Nat) : List Nat :=
  r :: source

/-- Modelled from the spec: the variant file record the pipeline publishes
for one resolution, carrying the URL templates the test asserts
(`src/unnamed/part_000` lines 46-51). -/
def makeVariantFile (host uuid : String) (r : Nat) : VariantFile :=
  { resolution := { id := r, label := toString r ++ "p" }
    magnetUri := "magnet:?xt=urn:btih:" ++ uuid ++ "-" ++ toString r
    torrentUrl := torrentUrlFor host uuid r
    fileUrl := fileUrlFor host uuid r }

/-- Modelled from the spec: the master manifest built by the Manifest
Builder, one entry per configured resolution referencing that variant's
sub-manifest (section 4.5). -/
def masterManifestFor (rs : List Nat) : List String :=
  rs.map variantManifestName

/-- Modelled from the spec: a variant sub-manifest of the fragmented-mp4
HLS tree references its variant's single direct-fetch file (section 6 and
`src/unnamed/part_000` line 79). -/
def variantManifest (uuid : String) (r : Nat) : List String :=
  [fragmentedFileName uuid r]

/-- The full published record of one video after a successful transcode:
the API detail record plus the manifests and segment hashes on disk. -/
structure VideoRecord where
  details : VideoDetails
  masterManifest : List String
  variantManifests : List (Nat × List String)
  segmentHashes : List (String × Nat)
deriving DecidableEq, Repr

/-- Modelled from the spec: the transcode-and-publish pipeline (sections 2
and 4); only its integration test is under `src`, so the pipeline the test
drives is reconstructed here: one variant per configured resolution, a
single HLS streaming playlist when HLS is enabled, top-level direct files
only when WebTorrent is enabled, master and variant manifests, and one
segment hash per produced segment. -/
def submit (cfg : TranscodingConfig) (host uuid name : String) (rs : List Nat)
    (source : List Nat) : VideoRecord :=
  { details :=
      { uuid := uuid
        name := name
        hostAccount := host
        files := if cfg.webtorrentEnabled then rs.map (makeVariantFile host uuid) else []
        streamingPlaylists :=
          if cfg.hlsEnabled then
            [ { type := VideoStreamingPlaylistType.HLS
                playlistUrl := hlsPlaylistUrlFor host uuid
                files := rs.map (makeVariantFile host uuid) } ]
          else [] }
    masterManifest := if cfg.hlsEnabled then masterManifestFor rs else []
    variantManifests := rs.map (fun r => (r, variantManifest uuid r))
    segmentHashes := rs.map (fun r => (fragmentedFileName uuid r, sha256Model (encodeSegmentBytes source r))) }

/-- The HLS files of a record, as the test reads them: the files of the
playlist found with type HLS (`src/unnamed/part_000` lines 33-36). -/
def hlsFilesOf (rec : VideoRecord) : List VariantFile :=
  match rec.details.streamingPlaylists.find? (fun p => p.type == VideoStreamingPlaylistType.HLS) with
  | some p => p.files
  | none => []

/-- Embedded from `src/unnamed/part_000` lines 42-51: the per-resolution
assertions on the variant file found by resolution id. -/
def variantUrlsOk (host uuid : String) (hlsFiles : List VariantFile) (r : Nat) : Bool :=
  match hlsFiles.find? (fun f => f.resolution.id == r) with
  | none => false
  | some file =>
      decide (2 < file.magnetUri.length) &&
      (file.torrentUrl == torrentUrlFor host uuid r) &&
      (file.fileUrl == fileUrlFor host uuid r) &&
      (file.resolution.label == toString r ++ "p")

/-- Embedded from `src/unnamed/part_000` lines 26-60 (`checkHlsPlaylist`):
exactly one streaming playlist, an HLS playlist present, one HLS file per
resolution, top-level files empty iff HLS-only, and the per-resolution URL
assertions. -/
def checkHlsPlaylistB (video : VideoDetails) (host : String) (hlsOnly : Bool)
    (rs : List Nat) : Bool :=
  (video.streamingPlaylists.length == 1) &&
  (match video.streamingPlaylists.find? (fun p => p.type == VideoStreamingPlaylistType.HLS) with
   | none => false
   | some hlsPlaylist =>
      (hlsPlaylist.files.length == rs.length) &&
      (if hlsOnly then video.files.length == 0 else video.files.length == rs.length) &&
      rs.all (fun r => variantUrlsOk host video.uuid hlsPlaylist.files r))

/-- Modelled from the spec: `checkResolutionsInMasterPlaylist` (helper not
under `src`) asserts the master playlist lists exactly the configured
resolutions; `src/unnamed/part_000` lines 67-70 additionally assert each
resolution's `m3u8` reference appears. -/
def masterManifestOk (master : List String) (rs : List Nat) : Bool :=
  (master.length == rs.length) && rs.all (fun r => master.contains (variantManifestName r))

/-- Modelled from the spec: the video-update handler is not under `src`
(the test drives it at `src/unnamed/part_000` lines 129-137); an update of
the mutable display metadata changes the name and nothing else — it does
not retrigger transcoding (section 3, lifecycle). -/
def updateName (rec : VideoRecord) (newName : String) : VideoRecord :=
  { rec with details := { rec.details with name := newName } }

/-- Modelled from the spec: `DEFAULT_AUDIO_RESOLUTION`, imported by the
test from `initializers/constants` which is not under `src`; the
designated audio pseudo-resolution. -/
def DEFAULT_AUDIO_RESOLUTION : Nat := 480

/-- Modelled from the spec: for an audio-only source the resolution set is
replaced by the designated audio pseudo-resolution plus the explicitly
configured companion resolutions (section 3, StreamingPlaylist
invariant). -/
def audioResolutions (companions : List Nat) : List Nat :=
  DEFAULT_AUDIO_RESOLUTION :: companions

/-- Modelled from the spec: submitting an audio-only source runs the
pipeline on the replaced resolution set. -/
def submitAudio (cfg : TranscodingConfig) (host uuid name : String)
    (companions : List Nat) (source : List Nat) : VideoRecord :=
  submit cfg host uuid name (audioResolutions companions) source

/-- Storage area of a file on disk: the public `videos` directory, the
public `streaming-playlists/hls` directory, or the temporary working area
(the directories the test checks at `src/unnamed/part_000` lines
153-164). -/
inductive StorageArea
  | publicVideos
  | publicHls
  | tmpArea
deriving DecidableEq, Repr

/-- A file on disk, tagged with the area it lives in and the video it
belongs to. -/
structure FileEntry where
  area : StorageArea
  videoUuid : String
  path : String
deriving DecidableEq, Repr

/-- Modelled from the spec: the finished artifact tree the Storage
Publisher installs for one video (section 4.6 and section 6 path
templates): per-resolution fragmented files and sub-manifests plus the
master manifest under the HLS area, and per-resolution direct files under
the videos area when WebTorrent output is enabled. -/
def publishedTree (uuid : String) (rs : List Nat) (webtorrent : Bool) : List FileEntry :=
  rs.map (fun r => { area := StorageArea.publicHls, videoUuid := uuid, path := fragmentedFileName uuid r }) ++
  rs.map (fun r => { area := StorageArea.publicHls, videoUuid := uuid, path := variantManifestName r }) ++
  [{ area := StorageArea.publicHls, videoUuid := uuid, path := "master.m3u8" }] ++
  (if webtorrent then
    rs.map (fun r => { area := StorageArea.publicVideos, videoUuid := uuid, path := fragmentedFileName uuid r })
   else [])

/-- Modelled from the spec: `Publish` (section 4.6) removes every prior
file tied to the video — the previous public tree and the run's temporary
working files — and installs the finished tree. -/
def publishStorage (st : List FileEntry) (uuid : String) (rs : List Nat)
    (webtorrent : Bool) : List FileEntry :=
  st.filter (fun f => !(f.videoUuid == uuid)) ++ publishedTree uuid rs webtorrent

/-- Modelled from the spec: `Retract` (section 4.6) removes all files tied
to the video from every area. -/
def retractStorage (st : List FileEntry) (uuid : String) : List FileEntry :=
  st.filter (fun f => !(f.videoUuid == uuid))

/-- Per-resolution sub-job state machine of the Transcode Job Scheduler
(spec section 4.1). -/
inductive SubJobState
  | Pending
  | Running
  | Succeeded
  | Failed
deriving DecidableEq, Repr

/-- Aggregate job state of the Transcode Job Scheduler (spec section
4.1). -/
inductive AggregateState
  | Pending
  | Running
  | Published
  | Failed
deriving DecidableEq, Repr

/-- Modelled from the spec: the aggregate boundary of the Transcode Job
Scheduler (section 4.1): the aggregate is Published, keeping the produced
artifacts, exactly when every sub-job Succeeded; otherwise it is Failed
and every partially produced artifact of the aggregate job is
discarded. -/
def aggregateFinalize (subs : List SubJobState) (produced : List FileEntry) :
    AggregateState × List FileEntry :=
  if subs.all (fun s => s == SubJobState.Succeeded) then
    (AggregateState.Published, produced)
  else
    (AggregateState.Failed, [])

/-- Pipeline state for one submission while its sub-jobs run: the number
of sub-jobs still running, whether the owning video was deleted
(cancellation), whether the master manifest was published, and the files
in the temporary and public areas for this submission. -/
structure PState where
  runningSubs : Nat
  cancelled : Bool
  published : Bool
  tmpFiles : List FileEntry
  publicFiles : List FileEntry
deriving DecidableEq, Repr

/-- Events observable while one submission's sub-jobs run. -/
inductive PEvent
  | subSegment (f : FileEntry)
  | subFinish
  | publishAll
  | deleteVideo
deriving DecidableEq, Repr

/-- Modelled from the spec: the cancellation semantics of section 5: a
running sub-job writes segments into the temporary working area and may
finish; publication happens only when the submission is not cancelled and
every sub-job has finished; deleting the owning video cancels the
submission, discards the partial output and retracts its public files;
cancelled sub-jobs observe the cancellation cooperatively and produce
nothing further. -/
def stepP (s : PState) : PEvent → PState
  | PEvent.subSegment f =>
      if s.cancelled then s else { s with tmpFiles := f :: s.tmpFiles }
  | PEvent.subFinish =>
      if s.cancelled then s else { s with runningSubs := s.runningSubs - 1 }
  | PEvent.publishAll =>
      if !s.cancelled && s.runningSubs == 0 then
        { s with published := true, publicFiles := s.publicFiles ++ s.tmpFiles, tmpFiles := [] }
      else s
  | PEvent.deleteVideo =>
      { s with cancelled := true, tmpFiles := [], publicFiles := [] }

/-- Run a list of events from a state. -/
def runTrace (s : PState) (events : List PEvent) : PState :=
  events.foldl stepP s

/-- Modelled from the spec: the set of URLs the HTTP Serving Layer
resolves for a published video (section 6): the peer descriptors, the
direct-fetch files, the variant sub-manifests and the master manifest. -/
def servedUrls (host uuid : String) (rs : List Nat) : List String :=
  rs.map (torrentUrlFor host uuid) ++ rs.map (fileUrlFor host uuid) ++
  rs.map (variantManifestUrlFor host uuid) ++ [hlsPlaylistUrlFor host uuid]

/-- Modelled from the spec: a non-destructive republish reinstalls the
tree for the same video and resolution set at the same canonical public
paths (sections 4.6 and 6), so the serving set afterwards is the
served-URL set of the same key. -/
def republishServedUrls (host uuid : String) (rs : List Nat) : List String :=
  servedUrls host uuid rs

/-- Finding a variant by resolution id in the pipeline's file list yields
the variant built for that resolution. -/
theorem find_makeVariantFile (host uuid : String) (r : Nat) (rs : List Nat)
    (h : r ∈ rs) :
    (rs.map (makeVariantFile host uuid)).find? (fun f => f.resolution.id == r)
      = some (makeVariantFile host uuid r) := by
  induction rs with
  | nil => cases h
  | cons a t ih =>
    rw [List.map_cons]
    by_cases har : a = r
    · subst har
      rw [List.find?_cons_of_pos]
      simp [makeVariantFile]
    · rw [List.find?_cons_of_neg]
      · rcases List.mem_cons.mp h with h1 | h2
        · exact absurd h1.symm har
        · exact ih h2
      · simp [makeVariantFile, har]

/-- With HLS enabled, the HLS file list of a submitted record is one
variant per configured resolution. -/
theorem hlsFilesOf_submit (cfg : TranscodingConfig) (host uuid name : String)
    (rs : List Nat) (source : List Nat) (hHls : cfg.hlsEnabled = true) :
    hlsFilesOf (submit cfg host uuid name rs source)
      = rs.map (makeVariantFile host uuid) := by
  simp [hlsFilesOf, submit, hHls, List.find?]

/-- Every file of a published tree is tied to the video it was published
for. -/
theorem publishedTree_videoUuid (uuid : String) (rs : List Nat) (wt : Bool) :
    ∀ f ∈ publishedTree uuid rs wt, f.videoUuid = uuid := by
  intro f hf
  unfold publishedTree at hf
  cases wt <;> simp at hf <;>
    rcases hf with ⟨r, _, rfl⟩ | ⟨r, _, rfl⟩ | rfl | ⟨r, _, rfl⟩ <;> rfl

/-- Claim C4: the segment hash is a pure deterministic function of the
segment bytes: identical bytes yield identical digests across restarts and
across independent instances, and a digest published by one instance
verifies the same bytes served by another. -/
theorem segment_hash_deterministic_cross_instance (i1 i2 : ServerInstance)
    (bytes : List Nat) :
    segmentHashOn i1 bytes = segmentHashOn i2 bytes ∧
    verifySegment (segmentHashOn i1 bytes) bytes = true := by
  constructor
  · rfl
  · simp [verifySegment, segmentHashOn]

/-- Claim C6: updating only the video's display name does not retrigger
transcoding: the master manifest, variant manifests, segment hashes,
top-level files and streaming playlists are all unchanged, and the
embedded playlist check is unaffected. -/
theorem update_name_frame (rec : VideoRecord) (n : String) :
    (updateName rec n).details.name = n ∧
    (updateName rec n).masterManifest = rec.masterManifest ∧
    (updateName rec n).variantManifests = rec.variantManifests ∧
    (updateName rec n).segmentHashes = rec.segmentHashes ∧
    (updateName rec n).details.files = rec.details.files ∧
    (updateName rec n).details.streamingPlaylists = rec.details.streamingPlaylists ∧
    ∀ (host : String) (hlsOnly : Bool) (rs : List Nat),
      checkHlsPlaylistB (updateName rec n).details host hlsOnly rs =
        checkHlsPlaylistB rec.details host hlsOnly rs :=
  ⟨rfl, rfl, rfl, rfl, rfl, rfl, fun _ _ _ => rfl⟩

/-- Claim C10: after a successful transcode with HLS enabled, the video
has exactly one StreamingPlaylist record and its type is HLS — never zero
and never more than one. -/
theorem streaming_playlist_unique_hls (cfg : TranscodingConfig)
    (host uuid name : String) (rs : List Nat) (source : List Nat)
    (hHls : cfg.hlsEnabled = true) :
    (submit cfg host uuid name rs source).details.streamingPlaylists.length = 1 ∧
    ∀ p ∈ (submit cfg host uuid name rs source).details.streamingPlaylists,
      p.type = VideoStreamingPlaylistType.HLS := by
  refine ⟨?_, ?_⟩ <;> simp [submit, hHls]

/-- Witness for C10 at the test's configuration and resolution set. -/
theorem streaming_playlist_unique_hls_witness :
    (submit ⟨true, true, true, true⟩ "localhost:9001" "uuid-1" "video 1"
        [240, 360, 480, 720] [0, 1]).details.streamingPlaylists.length = 1 ∧
    ∀ p ∈ (submit ⟨true, true, true, true⟩ "localhost:9001" "uuid-1" "video 1"
        [240, 360, 480, 720] [0, 1]).details.streamingPlaylists,
      p.type = VideoStreamingPlaylistType.HLS :=
  streaming_playlist_unique_hls ⟨true, true, true, true⟩ "localhost:9001" "uuid-1"
    "video 1" [240, 360, 480, 720] [0, 1] rfl

/-- Claim C2: the aggregate job is Published only if every sub-job
Succeeded; if any sub-job Failed the aggregate is Failed and every
partially produced artifact of that aggregate job is discarded. -/
theorem aggregate_all_or_nothing (subs : List SubJobState)
    (produced : List FileEntry) :
    ((aggregateFinalize subs produced).fst = AggregateState.Published →
      ∀ s ∈ subs, s = SubJobState.Succeeded) ∧
    ((∃ s ∈ subs, s = SubJobState.Failed) →
      (aggregateFinalize subs produced).fst = AggregateState.Failed ∧
      (aggregateFinalize subs produced).snd = []) := by
  unfold aggregateFinalize
  by_cases hall : subs.all (fun s => s == SubJobState.Succeeded) = true
  · rw [if_pos hall]
    constructor
    · intro _ s hs
      have hs' := List.all_eq_true.mp hall s hs
      simpa using hs'
    · rintro ⟨s, hs, hfail⟩
      have hs' := List.all_eq_true.mp hall s hs
      rw [hfail] at hs'
      simp at hs'
  · rw [if_neg hall]
    exact ⟨fun h => absurd h (by decide), fun _ => ⟨rfl, rfl⟩⟩

/-- Witness for C2: one failed sub-job among two forces a Failed aggregate
with no kept artifact. -/
theorem aggregate_all_or_nothing_witness :
    (aggregateFinalize [SubJobState.Succeeded, SubJobState.Failed]
        [{ area := StorageArea.tmpArea, videoUuid := "uuid-1", path := "seg0" }]).fst
      = AggregateState.Failed ∧
    (aggregateFinalize [SubJobState.Succeeded, SubJobState.Failed]
        [{ area := StorageArea.tmpArea, videoUuid := "uuid-1", path := "seg0" }]).snd
      = [] :=
  (aggregate_all_or_nothing [SubJobState.Succeeded, SubJobState.Failed]
      [{ area := StorageArea.tmpArea, videoUuid := "uuid-1", path := "seg0" }]).2
    ⟨SubJobState.Failed, by simp, rfl⟩

/-- Claim C3: publishing a video and then retracting it removes every file
tied to that video, returns the storage to its pre-publish state minus
that video, and from empty storage leaves the public serving areas and the
temporary working area entirely empty. -/
theorem publish_retract_roundtrip_empty (st : List FileEntry) (uuid : String)
    (rs : List Nat) (wt : Bool) :
    retractStorage (publishStorage st uuid rs wt) uuid = retractStorage st uuid ∧
    (retractStorage (publishStorage st uuid rs wt) uuid).filter
      (fun f => f.videoUuid == uuid) = [] ∧
    (st = [] → retractStorage (publishStorage st uuid rs wt) uuid = []) := by
  have hmain : retractStorage (publishStorage st uuid rs wt) uuid = retractStorage st uuid := by
    unfold retractStorage publishStorage
    rw [List.filter_append]
    have h1 : (publishedTree uuid rs wt).filter (fun f => !(f.videoUuid == uuid)) = [] := by
      rw [List.filter_eq_nil_iff]
      intro f hf
      have hfu := publishedTree_videoUuid uuid rs wt f hf
      simp [hfu]
    have h2 : (st.filter (fun f => !(f.videoUuid == uuid))).filter
        (fun f => !(f.videoUuid == uuid)) = st.filter (fun f => !(f.videoUuid == uuid)) := by
      rw [List.filter_filter]
      simp
    rw [h1, h2, List.append_nil]
  refine ⟨hmain, ?_, ?_⟩
  · rw [hmain]
    unfold retractStorage
    rw [List.filter_filter]
    simp
  · intro hst
    rw [hmain, hst]
    rfl

/-- Witness for C3 from empty storage: publish then retract ends with an
empty storage. -/
theorem publish_retract_roundtrip_empty_witness :
    retractStorage (publishStorage [] "uuid-1" [240, 360, 480, 720] true) "uuid-1" = [] :=
  (publish_retract_roundtrip_empty [] "uuid-1" [240, 360, 480, 720] true).2.2 rfl

/-- A cancelled, unpublished, artifact-free state stays so under any
event. -/
theorem stepP_preserves_cancelled (s : PState) (e : PEvent)
    (h : s.cancelled = true ∧ s.published = false ∧ s.tmpFiles = [] ∧ s.publicFiles = []) :
    (stepP s e).cancelled = true ∧ (stepP s e).published = false ∧
    (stepP s e).tmpFiles = [] ∧ (stepP s e).publicFiles = [] := by
  obtain ⟨h1, h2, h3, h4⟩ := h
  cases e <;> simp [stepP, h1, h2, h3, h4]

/-- A cancelled, unpublished, artifact-free state stays so under any event
trace. -/
theorem runTrace_preserves_cancelled (tr : List PEvent) (s : PState)
    (h : s.cancelled = true ∧ s.published = false ∧ s.tmpFiles = [] ∧ s.publicFiles = []) :
    (runTrace s tr).cancelled = true ∧ (runTrace s tr).published = false ∧
    (runTrace s tr).tmpFiles = [] ∧ (runTrace s tr).publicFiles = [] := by
  induction tr generalizing s with
  | nil => exact h
  | cons e tl ih => exact ih (stepP s e) (stepP_preserves_cancelled s e h)

/-- Claim C8: deleting the owning video while sub-jobs are running cancels
the submission: whatever events follow, nothing is ever published for that
submission, its partial output is discarded, and the temporary working
area ends empty. -/
theorem delete_mid_transcode_cancels (s : PState) (tr : List PEvent)
    (h1 : s.published = false) (_h2 : 0 < s.runningSubs) :
    (runTrace (stepP s PEvent.deleteVideo) tr).published = false ∧
    (runTrace (stepP s PEvent.deleteVideo) tr).tmpFiles = [] ∧
    (runTrace (stepP s PEvent.deleteVideo) tr).publicFiles = [] ∧
    (runTrace (stepP s PEvent.deleteVideo) tr).cancelled = true := by
  have h0 : (stepP s PEvent.deleteVideo).cancelled = true ∧
      (stepP s PEvent.deleteVideo).published = false ∧
      (stepP s PEvent.deleteVideo).tmpFiles = [] ∧
      (stepP s PEvent.deleteVideo).publicFiles = [] := by
    simp [stepP, h1]
  have h' := runTrace_preserves_cancelled tr (stepP s PEvent.deleteVideo) h0
  exact ⟨h'.2.1, h'.2.2.1, h'.2.2.2, h'.1⟩

/-- Witness for C8: a mid-transcode delete with two sub-jobs still running
and one partial segment, followed by further segment, finish and publish
attempts. -/
theorem delete_mid_transcode_cancels_witness :
    (runTrace (stepP
        { runningSubs := 2, cancelled := false, published := false,
          tmpFiles := [{ area := StorageArea.tmpArea, videoUuid := "uuid-1", path := "seg0" }],
          publicFiles := [] } PEvent.deleteVideo)
        [PEvent.subSegment { area := StorageArea.tmpArea, videoUuid := "uuid-1", path := "seg1" },
         PEvent.subFinish, PEvent.subFinish, PEvent.publishAll]).published = false ∧
    (runTrace (stepP
        { runningSubs := 2, cancelled := false, published := false,
          tmpFiles := [{ area := StorageArea.tmpArea, videoUuid := "uuid-1", path := "seg0" }],
          publicFiles := [] } PEvent.deleteVideo)
        [PEvent.subSegment { area := StorageArea.tmpArea, videoUuid := "uuid-1", path := "seg1" },
         PEvent.subFinish, PEvent.subFinish, PEvent.publishAll]).tmpFiles = [] ∧
    (runTrace (stepP
        { runningSubs := 2, cancelled := false, published := false,
          tmpFiles := [{ area := StorageArea.tmpArea, videoUuid := "uuid-1", path := "seg0" }],
          publicFiles := [] } PEvent.deleteVideo)
        [PEvent.subSegment { area := StorageArea.tmpArea, videoUuid := "uuid-1", path := "seg1" },
         PEvent.subFinish, PEvent.subFinish, PEvent.publishAll]).publicFiles = [] ∧
    (runTrace (stepP
        { runningSubs := 2, cancelled := false, published := false,
          tmpFiles := [{ area := StorageArea.tmpArea, videoUuid := "uuid-1", path := "seg0" }],
          publicFiles := [] } PEvent.deleteVideo)
        [PEvent.subSegment { area := StorageArea.tmpArea, videoUuid := "uuid-1", path := "seg1" },
         PEvent.subFinish, PEvent.subFinish, PEvent.publishAll]).cancelled = true :=
  delete_mid_transcode_cancels
    { runningSubs := 2, cancelled := false, published := false,
      tmpFiles := [{ area := StorageArea.tmpArea, videoUuid := "uuid-1", path := "seg0" }],
      publicFiles := [] }
    [PEvent.subSegment { area := StorageArea.tmpArea, videoUuid := "uuid-1", path := "seg1" },
     PEvent.subFinish, PEvent.subFinish, PEvent.publishAll]
    rfl (by decide)

/-- Claim C1: after a successful submit of resolution set R the master
manifest lists exactly one entry per element of R, and the HLS variant
file set has exactly one file per element of R, each declaring that
resolution as its label. -/
theorem submit_master_manifest_exact (cfg : TranscodingConfig)
    (host uuid name : String) (rs : List Nat) (source : List Nat)
    (hHls : cfg.hlsEnabled = true) (hnd : rs.Nodup) :
    (submit cfg host uuid name rs source).masterManifest.length = rs.length ∧
    masterManifestOk (submit cfg host uuid name rs source).masterManifest rs = true ∧
    (hlsFilesOf (submit cfg host uuid name rs source)).length = rs.length ∧
    ∀ r ∈ rs,
      (hlsFilesOf (submit cfg host uuid name rs source)).countP
          (fun f => f.resolution.id == r) = 1 ∧
      (hlsFilesOf (submit cfg host uuid name rs source)).find?
          (fun f => f.resolution.id == r) = some (makeVariantFile host uuid r) ∧
      (makeVariantFile host uuid r).resolution.label = toString r ++ "p" := by
  have hmaster : (submit cfg host uuid name rs source).masterManifest
      = rs.map variantManifestName := by
    simp [submit, hHls, masterManifestFor]
  have hfiles := hlsFilesOf_submit cfg host uuid name rs source hHls
  refine ⟨?_, ?_, ?_, ?_⟩
  · rw [hmaster, List.length_map]
  · unfold masterManifestOk
    rw [hmaster, Bool.and_eq_true]
    refine ⟨by simp, ?_⟩
    rw [List.all_eq_true]
    intro r hr
    have hmem : variantManifestName r ∈ rs.map variantManifestName :=
      List.mem_map_of_mem _ hr
    simpa [List.contains] using List.elem_eq_true_of_mem hmem
  · rw [hfiles, List.length_map]
  · intro r hr
    refine ⟨?_, ?_, rfl⟩
    · rw [hfiles, List.countP_map]
      have hc : rs.countP ((fun f => f.resolution.id == r) ∘ makeVariantFile host uuid)
          = rs.count r := rfl
      rw [hc]
      exact List.count_eq_one_of_mem hnd hr
    · rw [hfiles]
      exact find_makeVariantFile host uuid r rs hr

/-- Witness for C1 at the test's resolution set [240, 360, 480, 720]: the
master manifest has exactly 4 entries. -/
theorem submit_master_manifest_exact_witness :
    (submit ⟨true, true, true, true⟩ "localhost:9001" "uuid-1" "video 1"
        [240, 360, 480, 720] [0, 1]).masterManifest.length = 4 ∧
    masterManifestOk (submit ⟨true, true, true, true⟩ "localhost:9001" "uuid-1"
        "video 1" [240, 360, 480, 720] [0, 1]).masterManifest [240, 360, 480, 720] = true ∧
    (hlsFilesOf (submit ⟨true, true, true, true⟩ "localhost:9001" "uuid-1" "video 1"
        [240, 360, 480, 720] [0, 1])).length = 4 ∧
    ∀ r ∈ [240, 360, 480, 720],
      (hlsFilesOf (submit ⟨true, true, true, true⟩ "localhost:9001" "uuid-1" "video 1"
          [240, 360, 480, 720] [0, 1])).countP (fun f => f.resolution.id == r) = 1 ∧
      (hlsFilesOf (submit ⟨true, true, true, true⟩ "localhost:9001" "uuid-1" "video 1"
          [240, 360, 480, 720] [0, 1])).find? (fun f => f.resolution.id == r)
        = some (makeVariantFile "localhost:9001" "uuid-1" r) ∧
      (makeVariantFile "localhost:9001" "uuid-1" r).resolution.label = toString r ++ "p" :=
  submit_master_manifest_exact ⟨true, true, true, true⟩ "localhost:9001" "uuid-1"
    "video 1" [240, 360, 480, 720] [0, 1] rfl (by decide)

/-- Claim C5: for every resolution of a published video the artifacts are
served at the documented templates — the variant manifest at `<r>.m3u8`,
the direct-fetch file at `<uuid>-<r>-fragmented.mp4`, the peer descriptor
at `<uuid>-<r>-hls.torrent` — and these URLs are still in the serving set
after a non-destructive republish. -/
theorem artifact_path_templates (cfg : TranscodingConfig)
    (host uuid name : String) (rs : List Nat) (source : List Nat) (r : Nat)
    (hHls : cfg.hlsEnabled = true) (hr : r ∈ rs) :
    (hlsFilesOf (submit cfg host uuid name rs source)).find?
        (fun f => f.resolution.id == r) = some (makeVariantFile host uuid r) ∧
    (makeVariantFile host uuid r).torrentUrl
      = "http://" ++ host ++ "/lazy-static/torrents/" ++ uuid ++ "-" ++ toString r ++ "-hls.torrent" ∧
    (makeVariantFile host uuid r).fileUrl
      = "http://" ++ host ++ "/static/streaming-playlists/hls/" ++ uuid ++ "/" ++ uuid ++ "-" ++ toString r ++ "-fragmented.mp4" ∧
    variantManifestName r = toString r ++ ".m3u8" ∧
    variantManifestName r ∈ (submit cfg host uuid name rs source).masterManifest ∧
    (makeVariantFile host uuid r).fileUrl ∈ servedUrls host uuid rs ∧
    (makeVariantFile host uuid r).torrentUrl ∈ servedUrls host uuid rs ∧
    (makeVariantFile host uuid r).fileUrl ∈ republishServedUrls host uuid rs ∧
    (makeVariantFile host uuid r).torrentUrl ∈ republishServedUrls host uuid rs := by
  have hmaster : (submit cfg host uuid name rs source).masterManifest
      = rs.map variantManifestName := by
    simp [submit, hHls, masterManifestFor]
  have hfile : fileUrlFor host uuid r ∈ rs.map (fileUrlFor host uuid) :=
    List.mem_map_of_mem _ hr
  have htorrent : torrentUrlFor host uuid r ∈ rs.map (torrentUrlFor host uuid) :=
    List.mem_map_of_mem _ hr
  have hfileServed : fileUrlFor host uuid r ∈ servedUrls host uuid rs :=
    List.mem_append_left _ (List.mem_append_left _ (List.mem_append_right _ hfile))
  have htorrentServed : torrentUrlFor host uuid r ∈ servedUrls host uuid rs :=
    List.mem_append_left _ (List.mem_append_left _ (List.mem_append_left _ htorrent))
  refine ⟨?_, rfl, rfl, rfl, ?_, hfileServed, htorrentServed, hfileServed, htorrentServed⟩
  · rw [hlsFilesOf_submit cfg host uuid name rs source hHls]
    exact find_makeVariantFile host uuid r rs hr
  · rw [hmaster]
    exact List.mem_map_of_mem _ hr

/-- Witness for C5 at resolution 360 of the test's resolution set. -/
theorem artifact_path_templates_witness :
    (hlsFilesOf (submit ⟨true, true, true, true⟩ "localhost:9001" "uuid-1" "video 1"
        [240, 360, 480, 720] [0, 1])).find? (fun f => f.resolution.id == 360)
      = some (makeVariantFile "localhost:9001" "uuid-1" 360) ∧
    (makeVariantFile "localhost:9001" "uuid-1" 360).torrentUrl
      = "http://" ++ "localhost:9001" ++ "/lazy-static/torrents/" ++ "uuid-1" ++ "-" ++ toString 360 ++ "-hls.torrent" ∧
    (makeVariantFile "localhost:9001" "uuid-1" 360).fileUrl
      = "http://" ++ "localhost:9001" ++ "/static/streaming-playlists/hls/" ++ "uuid-1" ++ "/" ++ "uuid-1" ++ "-" ++ toString 360 ++ "-fragmented.mp4" ∧
    variantManifestName 360 = toString 360 ++ ".m3u8" ∧
    variantManifestName 360 ∈ (submit ⟨true, true, true, true⟩ "localhost:9001" "uuid-1"
        "video 1" [240, 360, 480, 720] [0, 1]).masterManifest ∧
    (makeVariantFile "localhost:9001" "uuid-1" 360).fileUrl
      ∈ servedUrls "localhost:9001" "uuid-1" [240, 360, 480, 720] ∧
    (makeVariantFile "localhost:9001" "uuid-1" 360).torrentUrl
      ∈ servedUrls "localhost:9001" "uuid-1" [240, 360, 480, 720] ∧
    (makeVariantFile "localhost:9001" "uuid-1" 360).fileUrl
      ∈ republishServedUrls "localhost:9001" "uuid-1" [240, 360, 480, 720] ∧
    (makeVariantFile "localhost:9001" "uuid-1" 360).torrentUrl
      ∈ republishServedUrls "localhost:9001" "uuid-1" [240, 360, 480, 720] :=
  artifact_path_templates ⟨true, true, true, true⟩ "localhost:9001" "uuid-1" "video 1"
    [240, 360, 480, 720] [0, 1] 360 rfl (by decide)

/-- Claim C7: for an audio-only source the resolution set is replaced by
the designated audio pseudo-resolution plus the configured companion
resolutions, and submitting with companions [360, 240] yields manifests
listing exactly 3 variants. -/
theorem audio_source_three_variants (cfg : TranscodingConfig)
    (host uuid name : String) (source : List Nat)
    (hHls : cfg.hlsEnabled = true) (_hAud : cfg.allowAudioFiles = true) :
    audioResolutions [360, 240] = [DEFAULT_AUDIO_RESOLUTION, 360, 240] ∧
    (hlsFilesOf (submitAudio cfg host uuid name [360, 240] source)).length = 3 ∧
    (submitAudio cfg host uuid name [360, 240] source).masterManifest.length = 3 ∧
    masterManifestOk (submitAudio cfg host uuid name [360, 240] source).masterManifest
      (audioResolutions [360, 240]) = true := by
  have hmaster : (submitAudio cfg host uuid name [360, 240] source).masterManifest
      = masterManifestFor (audioResolutions [360, 240]) := by
    simp [submitAudio, submit, hHls]
  refine ⟨rfl, ?_, ?_, ?_⟩
  · rw [show submitAudio cfg host uuid name [360, 240] source
        = submit cfg host uuid name (audioResolutions [360, 240]) source from rfl,
      hlsFilesOf_submit cfg host uuid name (audioResolutions [360, 240]) source hHls]
    rfl
  · rw [hmaster]
    rfl
  · rw [hmaster]
    decide

/-- Witness for C7 at the test's audio submit. -/
theorem audio_source_three_variants_witness :
    audioResolutions [360, 240] = [DEFAULT_AUDIO_RESOLUTION, 360, 240] ∧
    (hlsFilesOf (submitAudio ⟨true, true, true, true⟩ "localhost:9001" "uuid-audio"
        "video audio" [360, 240] [2, 3])).length = 3 ∧
    (submitAudio ⟨true, true, true, true⟩ "localhost:9001" "uuid-audio" "video audio"
        [360, 240] [2, 3]).masterManifest.length = 3 ∧
    masterManifestOk (submitAudio ⟨true, true, true, true⟩ "localhost:9001" "uuid-audio"
        "video audio" [360, 240] [2, 3]).masterManifest (audioResolutions [360, 240]) = true :=
  audio_source_three_variants ⟨true, true, true, true⟩ "localhost:9001" "uuid-audio"
    "video audio" [2, 3] rfl rfl

/-- Claim C9: direct-fetch (WebTorrent) output is governed by
configuration independently of HLS output: with WebTorrent disabled and
HLS enabled the top-level files list is empty; with both enabled it has
exactly one file per resolution; the HLS playlist's file set is identical
in both modes. -/
theorem webtorrent_config_governs_files (cfgH cfgB : TranscodingConfig)
    (host uuid name : String) (rs : List Nat) (source : List Nat)
    (h1 : cfgH.hlsEnabled = true) (h2 : cfgH.webtorrentEnabled = false)
    (h3 : cfgB.hlsEnabled = true) (h4 : cfgB.webtorrentEnabled = true)
    (hnd : rs.Nodup) :
    (submit cfgH host uuid name rs source).details.files.length = 0 ∧
    (submit cfgB host uuid name rs source).details.files.length = rs.length ∧
    (∀ r ∈ rs, (submit cfgB host uuid name rs source).details.files.countP
        (fun f => f.resolution.id == r) = 1) ∧
    hlsFilesOf (submit cfgH host uuid name rs source)
      = hlsFilesOf (submit cfgB host uuid name rs source) ∧
    (hlsFilesOf (submit cfgH host uuid name rs source)).length = rs.length := by
  have hB : (submit cfgB host uuid name rs source).details.files
      = rs.map (makeVariantFile host uuid) := by
    simp [submit, h4]
  refine ⟨?_, ?_, ?_, ?_, ?_⟩
  · simp [submit, h2]
  · rw [hB, List.length_map]
  · intro r hr
    rw [hB, List.countP_map]
    have hc : rs.countP ((fun f => f.resolution.id == r) ∘ makeVariantFile host uuid)
        = rs.count r := rfl
    rw [hc]
    exact List.count_eq_one_of_mem hnd hr
  · rw [hlsFilesOf_submit cfgH host uuid name rs source h1,
      hlsFilesOf_submit cfgB host uuid name rs source h3]
  · rw [hlsFilesOf_submit cfgH host uuid name rs source h1, List.length_map]

/-- Witness for C9 at the two test configurations. -/
theorem webtorrent_config_governs_files_witness :
    (submit ⟨true, true, true, false⟩ "localhost:9001" "uuid-1" "video 1"
        [240, 360, 480, 720] [0, 1]).details.files.length = 0 ∧
    (submit ⟨true, true, true, true⟩ "localhost:9001" "uuid-1" "video 1"
        [240, 360, 480, 720] [0, 1]).details.files.length = [240, 360, 480, 720].length ∧
    (∀ r ∈ [240, 360, 480, 720],
      (submit ⟨true, true, true, true⟩ "localhost:9001" "uuid-1" "video 1"
          [240, 360, 480, 720] [0, 1]).details.files.countP
        (fun f => f.resolution.id == r) = 1) ∧
    hlsFilesOf (submit ⟨true, true, true, false⟩ "localhost:9001" "uuid-1" "video 1"
        [240, 360, 480, 720] [0, 1])
      = hlsFilesOf (submit ⟨true, true, true, true⟩ "localhost:9001" "uuid-1" "video 1"
        [240, 360, 480, 720] [0, 1]) ∧
    (hlsFilesOf (submit ⟨true, true, true, false⟩ "localhost:9001" "uuid-1" "video 1"
        [240, 360, 480, 720] [0, 1])).length = [240, 360, 480, 720].length :=
  webtorrent_config_governs_files ⟨true, true, true, false⟩ ⟨true, true, true, true⟩
    "localhost:9001" "uuid-1" "video 1" [240, 360, 480, 720] [0, 1]
    rfl rfl rfl rfl (by decide)

end PeerTube
